import Mathlib

/-!
Verification of the zk-faceid-project core against its natural-language
specification.  The Python source (src/zk-faceid-api/main_day4.py and
src/day2-mediapipe/face_embedding_capture.py) is shallowly embedded:

* Python floats are modelled as exact rationals (`ℚ`); every claim settled
  here depends only on comparisons and arithmetic whose verdict agrees
  between IEEE doubles and exact rationals at the inputs involved.
* `int(x)` (truncation toward zero) is modelled by `pyInt`.
* Wall-clock values (`time.time()`, `processing_time`) are omitted: no claim
  inspects them beyond "a time is recorded", which is carried by the
  metrics-update field of the proof-generation model.
* Opaque primitives (SHA-256 digests, the external snarkjs subprocess, the
  filesystem, temp-file failures) are parameters of a `ProverEnv` record, so
  the control flow of `generate_proof` is modelled exactly while the
  environment's behaviour stays universally quantified.
-/

namespace ZkFaceId

/-- Python `int(x)` truncates toward zero. -/
def pyInt (q : ℚ) : ℤ := if q < 0 then ⌈q⌉ else ⌊q⌋

/-! ## Risk Scoring Engine (`AdvancedRiskScorer`, main_day4.py lines 505-700) -/

/-- The financial profile consumed by `calculate_risk_score`
(fields produced by `_analyze_transactions` / `_generate_sample_data`). -/
structure FinancialProfile where
  monthly_income : ℚ
  monthly_expenses : ℚ
  average_balance : ℚ
  transaction_frequency : ℚ
  income_stability : ℚ
  expense_pattern_score : ℚ

/-- The result dictionary of `calculate_risk_score` (opaque display strings
kept verbatim; `score_breakdown` raw scores carried as named fields). -/
structure RiskAssessment where
  final_score : ℤ
  risk_category : String
  weighted_score : ℚ
  income_component : ℚ
  expense_component : ℚ
  balance_component : ℚ
  frequency_component : ℚ
  stability_component : ℚ
  pattern_component : ℚ
  risk_factors : List String
  recommendations : List String

/-- `income_score` local of `calculate_risk_score` (main_day4.py line 615). -/
def income_score (p : FinancialProfile) : ℚ := min (p.monthly_income / 100000) 1

/-- `expense_ratio` local of `calculate_risk_score` (line 616). -/
def expenseFrac (p : FinancialProfile) : ℚ :=
  if p.monthly_income > 0 then p.monthly_expenses / p.monthly_income else 1

/-- `expense_score` local of `calculate_risk_score` (line 617). -/
def expense_score (p : FinancialProfile) : ℚ := max 0 (1 - expenseFrac p)

/-- `balance_score` local of `calculate_risk_score` (line 618). -/
def balance_score (p : FinancialProfile) : ℚ :=
  if p.average_balance > 0 then min (p.average_balance / 50000) 1 else 0

/-- `frequency_score` local of `calculate_risk_score` (line 619). -/
def frequency_score (p : FinancialProfile) : ℚ := min (p.transaction_frequency / 30) 1

/-- `stability_score` local of `calculate_risk_score` (line 620). -/
def stability_score (p : FinancialProfile) : ℚ := max 0 (1 - p.income_stability)

/-- `pattern_score` local of `calculate_risk_score` (line 621). -/
def pattern_score (p : FinancialProfile) : ℚ := p.expense_pattern_score

/-- `weighted_score` local of `calculate_risk_score` (lines 623-630), with the
constructor's `self.weights` table (0.25 / 0.20 / 0.20 / 0.15 / 0.10 / 0.10). -/
def weighted_score (p : FinancialProfile) : ℚ :=
  income_score p * (25/100) + expense_score p * (20/100) + balance_score p * (20/100) +
  frequency_score p * (15/100) + stability_score p * (10/100) + pattern_score p * (10/100)

/-- `AdvancedRiskScorer.calculate_risk_score` (main_day4.py lines 612-689). -/
def calculate_risk_score (p : FinancialProfile) : RiskAssessment :=
  let credit_score := pyInt (300 + weighted_score p * 600)
  { final_score := credit_score
    risk_category :=
      if credit_score ≥ 750 then "VERY_LOW"
      else if credit_score ≥ 650 then "LOW"
      else if credit_score ≥ 550 then "MEDIUM"
      else if credit_score ≥ 450 then "HIGH"
      else "VERY_HIGH"
    weighted_score := weighted_score p
    income_component := income_score p * 100
    expense_component := expense_score p * 100
    balance_component := balance_score p * 100
    frequency_component := frequency_score p * 100
    stability_component := stability_score p * 100
    pattern_component := pattern_score p * 100
    risk_factors :=
      (if p.income_stability > 3/10 then ["Irregular income pattern"] else []) ++
      (if expenseFrac p > 8/10 then ["High expense to income ratio"] else []) ++
      (if p.average_balance < 10000 then ["Low average account balance"] else []) ++
      (if p.transaction_frequency < 10 then ["Low transaction activity"] else [])
    recommendations :=
      (if p.average_balance < 30000 then ["Consider building an emergency fund"] else []) ++
      (if expenseFrac p > 7/10 then ["Review and optimize monthly expenses"] else []) ++
      (if p.income_stability > 2/10 then ["Diversify income sources for better stability"] else []) }

/-- An entirely in-range profile on which every component score reaches 1. -/
def profileAllMax : FinancialProfile :=
  { monthly_income := 100000, monthly_expenses := 0, average_balance := 50000
    transaction_frequency := 30, income_stability := 0, expense_pattern_score := 1 }

/-- An adversarial profile whose `expense_pattern_score` is far out of range. -/
def profilePatternTen : FinancialProfile :=
  { monthly_income := 100000, monthly_expenses := 0, average_balance := 50000
    transaction_frequency := 30, income_stability := 0, expense_pattern_score := 10 }

/-! ## Liveness & Quality Analyzer
(`EnhancedLivenessDetector.detect_face_and_liveness`, main_day4.py lines 152-278)

The geometric ratios (`avg_ear`, `mouth_ar`), the detector's bounding-box
`face_area` and the pixel-statistics `quality_metrics` are computed by the
lines preceding the scoring block (MediaPipe landmarks, `np.linalg.norm`,
OpenCV Laplacian); they enter the model as rational arguments, and the
scoring / embedding block (lines 207-267) is embedded exactly. -/

/-- `QualityMetrics` as returned by `detect_face_quality` (lines 134-150). -/
structure QualityMetrics where
  sharpness : ℚ
  brightness : ℚ
  contrast : ℚ

/-- `self.EAR_THRESHOLD = 0.2` (line 101). -/
def EAR_THRESHOLD : ℚ := 1/5

/-- `self.FACE_SIZE_THRESHOLD = 0.1` (line 103). -/
def FACE_SIZE_THRESHOLD : ℚ := 1/10

/-- The weighted pass/fail contributions of lines 207-235, in source order.
Each passing check contributes its weight and its human-readable factor
string (the f-string numeric interpolations of the source are elided from
the strings; no claim reads them). -/
def liveness_checks (avg_ear mouth_ar face_area : ℚ) (quality : QualityMetrics)
    (landmark_variance : ℚ) (advanced_mode : Bool) : List (ℚ × String) :=
  (if avg_ear > EAR_THRESHOLD then [((2/5 : ℚ), "Eyes open")] else []) ++
  (if face_area > FACE_SIZE_THRESHOLD then [((3/10 : ℚ), "Appropriate face size")] else []) ++
  (if quality.sharpness > 50 then [((1/5 : ℚ), "Good sharpness")] else []) ++
  (if 50 < quality.brightness ∧ quality.brightness < 200 then [((1/10 : ℚ), "Good lighting")] else []) ++
  (if advanced_mode then
    (if mouth_ar < 7/10 then [((1/10 : ℚ), "Natural mouth position")] else []) ++
    (if landmark_variance > 10 then [((1/10 : ℚ), "Natural facial variation")] else [])
   else [])

/-- `landmarks[::2]` — numpy stride-2 slicing. -/
def everyOther {α : Type} : List α → List α
  | [] => []
  | [x] => [x]
  | x :: _ :: rest => x :: everyOther rest

/-- `flattened.min()` (numpy raises on an empty array; the detect path always
passes the 468/478-point mesh, so the list is non-empty and the default
branch is never taken there). -/
def listMin (l : List ℤ) : ℤ :=
  match l with
  | [] => 0
  | x :: xs => xs.foldl min x

/-- `flattened.max()`. -/
def listMax (l : List ℤ) : ℤ :=
  match l with
  | [] => 0
  | x :: xs => xs.foldl max x

/-- Lines 240-249: the "enhanced 256-byte embedding".  Landmarks are the
integer pixel coordinates `[x, y]` built at lines 180-186.
`selected_landmarks = landmarks[::2][:64]`, `flattened =
selected_landmarks.flatten()[:256]`, then min-max normalisation to `[0, 255]`
(`.astype(int)` truncation), or `np.ones(256) * 128` on degenerate input. -/
def embedding_256 (landmarks : List (ℤ × ℤ)) : List ℤ :=
  let selected := (everyOther landmarks).take 64
  let flattened := (selected.flatMap (fun q => [q.1, q.2])).take 256
  if listMin flattened < listMax flattened then
    flattened.map (fun v =>
      pyInt (((v - listMin flattened : ℤ) : ℚ) * 255 / ((listMax flattened - listMin flattened : ℤ) : ℚ)))
  else
    List.replicate 256 128

/-- The fields of the dictionary returned on the face-detected path of
`detect_face_and_liveness` (lines 253-267) that the claims read. -/
structure DetectionResult where
  face_detected : Bool
  liveness_detected : Bool
  confidence : ℚ
  eye_aspect_rat : ℚ
  mouth_aspect_rat : ℚ
  face_area : ℚ
  quality_metrics : QualityMetrics
  confidence_factors : List String
  embedding : List ℤ

/-- The face-detected path of `detect_face_and_liveness` (lines 207-267):
`liveness_score` accumulation, `is_live = liveness_score >= 0.6`,
`final_confidence = min(liveness_score, 1.0)`, and the 256-embedding. -/
def detect_face_and_liveness (avg_ear mouth_ar face_area : ℚ)
    (quality : QualityMetrics) (landmark_variance : ℚ) (advanced_mode : Bool)
    (landmarks : List (ℤ × ℤ)) : DetectionResult :=
  let checks := liveness_checks avg_ear mouth_ar face_area quality landmark_variance advanced_mode
  let liveness_score := (checks.map Prod.fst).sum
  { face_detected := true
    liveness_detected := decide (liveness_score ≥ 3/5)
    confidence := min liveness_score 1
    eye_aspect_rat := avg_ear
    mouth_aspect_rat := mouth_ar
    face_area := face_area
    quality_metrics := quality
    confidence_factors := checks.map Prod.snd
    embedding := embedding_256 landmarks }

/-- `_identify_failed_liveness_checks` (main_day4.py lines 755-772). -/
def identify_failed_liveness_checks (r : DetectionResult) : List String :=
  (if r.eye_aspect_rat ≤ 1/5 then ["Eyes appear closed or partially closed"] else []) ++
  (if r.face_area ≤ 1/10 then ["Face too small or distant"] else []) ++
  (if r.quality_metrics.sharpness < 50 then ["Image not sharp enough"] else []) ++
  (if r.quality_metrics.brightness < 50 ∨ r.quality_metrics.brightness > 200
    then ["Poor lighting conditions"] else [])

/-- A quality record passing the sharpness and brightness checks. -/
def qualityGood : QualityMetrics := { sharpness := 100, brightness := 128, contrast := 50 }

/-- 468 landmarks on a diagonal: distinct coordinates, so the min-max
normalisation branch of the embedding is taken. -/
def landmarksDiagonal : List (ℤ × ℤ) := (List.range 468).map (fun i => ((i : ℤ), (i : ℤ)))

/-- 468 copies of one point: the degenerate flat input
(`flattened.max() == flattened.min()`). -/
def landmarksFlat : List (ℤ × ℤ) := List.replicate 468 ((5 : ℤ), (5 : ℤ))

/-! ## Proof Generation Engine
(`AdvancedZKProofGenerator`, main_day4.py lines 280-503)

The engine's interactions with the outside world — the filesystem probes for
the circuit artifacts, the SHA-256 digests, and the snarkjs subprocess — are
the fields of a `ProverEnv`; the control flow of `generate_proof`,
`hash_embedding` and `check_circuit_health` over that environment is
embedded exactly.  Wall-clock timestamps and measured durations are elided;
whether a metrics update happens, and with which success flag, is the
`metricsUpdate` field of the outcome. -/

/-- The `proof` JSON object: the simulated placeholder's shape
(lines 486-492), also used for the parsed real proof. -/
structure ProofPayload where
  pi_a : List String
  pi_b : List (List String)
  pi_c : List String
  protocol : String
  curve : String

/-- What `subprocess.run(["snarkjs", "groth16", "fullprove", ...])` and the
subsequent parsing do when they are reached: exit 0 with parseable output
files, a non-zero exit with some stderr text, a `TimeoutExpired`, or some
other exception (e.g. a proof-file parse failure) caught by the generic
handler. -/
inductive ProverOutcome where
  | success (proof : ProofPayload) (signals : List String)
  | nonzeroExit (stderr : String)
  | timeoutExpired
  | internalError (msg : String)

/-- The environment of one `generate_proof` / `check_circuit_health` call.
`sha256hex` abstracts `hashlib.sha256(bytes).hexdigest()`; `shaTextHex8`
abstracts `int(hashlib.sha256(s.encode()).hexdigest()[:8], 16)`;
`hexBytes8` abstracts `[int(b) for b in bytes.fromhex(digest[:16])]`
(total, because a hexdigest is always valid hex).  `setupError` is an
exception raised before the artifact checks (e.g. temp-file creation),
caught by the generic `except Exception` handler. -/
structure ProverEnv where
  wasmExists : Bool
  zkeyExists : Bool
  r1csExists : Bool
  snarkjsAvailable : Bool
  wasmSize : ℕ
  zkeySize : ℕ
  sha256hex : List ℤ → String
  shaTextHex8 : String → ℕ
  hexBytes8 : String → List ℕ
  setupError : Option String
  proverRun : ProverOutcome

/-- `bytes(embedding)` succeeds exactly when every element is a byte. -/
def bytesOK (l : List ℤ) : Bool := l.all (fun v => decide (0 ≤ v) && decide (v < 256))

/-- The byte sequence of the ASCII string `b"fallback"`. -/
def fallbackBytes : List ℤ := [102, 97, 108, 108, 98, 97, 99, 107]

/-- `hashlib.sha256(bytes(l)).hexdigest()`, with the internal
`except Exception` fallback to `hashlib.sha256(b"fallback").hexdigest()`
when an element is not a byte (lines 362-368). -/
def bytesHash (env : ProverEnv) (l : List ℤ) : String :=
  if bytesOK l then env.sha256hex l else env.sha256hex fallbackBytes

/-- `AdvancedZKProofGenerator.hash_embedding` (lines 354-368).  Returns the
digest together with the caller's list as it stands after the call:
`embedding.extend([0] * (128 - len(embedding)))` mutates the argument in
place, while the `len > 256` branch rebinds only the local name. -/
def hash_embedding (env : ProverEnv) (embedding : List ℤ) : String × List ℤ :=
  if embedding.length < 128 then
    let extended := embedding ++ List.replicate (128 - embedding.length) 0
    (bytesHash env extended, extended)
  else if embedding.length > 256 then
    (bytesHash env (embedding.take 256), embedding)
  else
    (bytesHash env embedding, embedding)

/-- `check_circuit_health`'s `health_status` dictionary (lines 295-352).
The `estimated_proof_time` display string `f"{max(1.0, zkey_size/1e6):.1f}s"`
is carried as the unformatted rational (`none` = `"unknown"`). -/
structure CircuitHealthStatus where
  wasm_exists : Bool
  zkey_exists : Bool
  r1cs_exists : Bool
  wasm_size : ℕ
  zkey_size : ℕ
  snarkjs_available : Bool
  estimated_proof_time : Option ℚ
  overall_health : String

/-- `AdvancedZKProofGenerator.check_circuit_health` (lines 295-352): sizes
are filled only for artifacts that exist, and `overall_health` is
`"healthy"` when the wasm artifact, the zkey artifact and the snarkjs tool
are all available, `"degraded"` otherwise (the `"unhealthy"` initial value
is always overwritten on the exception-free path). -/
def check_circuit_health (env : ProverEnv) : CircuitHealthStatus :=
  let wasmSize := if env.wasmExists then env.wasmSize else 0
  let zkeySize := if env.zkeyExists then env.zkeySize else 0
  { wasm_exists := env.wasmExists
    zkey_exists := env.zkeyExists
    r1cs_exists := env.r1csExists
    wasm_size := wasmSize
    zkey_size := zkeySize
    snarkjs_available := env.snarkjsAvailable
    estimated_proof_time :=
      if zkeySize > 0 then some (max 1 ((zkeySize : ℚ) / 1000000)) else none
    overall_health :=
      if env.wasmExists && env.zkeyExists && env.snarkjsAvailable then "healthy"
      else "degraded" }

/-- The `circuit_input` dictionary (lines 379-387). -/
structure CircuitInput where
  nullifierHash : ℕ
  signalHash : ℕ
  externalNullifier : ℕ
  identityNullifier : ℕ
  identityTrapdoor : ℕ
  pathElements : List ℕ
  pathIndices : List ℕ

/-- Lines 376-387: the bounded circuit inputs derived from the embedding
hash and user id (`str(embedding[:8])` is abstracted by `toString`). -/
def mk_circuit_input (env : ProverEnv) (embedding_hash user_id : String)
    (embedding : List ℤ) : CircuitInput :=
  let signal_input := env.hexBytes8 embedding_hash
  { nullifierHash := env.shaTextHex8 embedding_hash % 2 ^ 31
    signalHash := env.shaTextHex8 (toString (embedding.take 8)) % 2 ^ 31
    externalNullifier := env.shaTextHex8 user_id % 2 ^ 31
    identityNullifier := signal_input.headD 12345
    identityTrapdoor := (signal_input.drop 1).headD 67890
    pathElements := [11111, 22222, 33333, 44444]
    pathIndices := [0, 1, 0, 1] }

/-- The fields of the returned proof dictionary the claims read
(`timestamp` and `processing_time` elided; `fallback_reason` is the key that
only the simulated dictionary carries). -/
structure ProofResult where
  success : Bool
  proof : ProofPayload
  publicSignals : List String
  embedding_hash : String
  nullifier : ℕ
  protocol : String
  circuit : String
  proof_type : String
  circuit_health : String
  fallback_reason : Option String
  priorityTag : Option String

/-- The fixed-shape placeholder proof values of
`_generate_enhanced_simulated_proof` (lines 486-492). -/
def simulatedPayload : ProofPayload :=
  { pi_a := ["0x" ++ String.mk (List.replicate 64 '1'),
             "0x" ++ String.mk (List.replicate 64 '2'), "0x1"]
    pi_b := [["0x" ++ String.mk (List.replicate 64 '3'),
              "0x" ++ String.mk (List.replicate 64 '4')],
             ["0x" ++ String.mk (List.replicate 64 '5'),
              "0x" ++ String.mk (List.replicate 64 '6')],
             ["0x1", "0x0"]]
    pi_c := ["0x" ++ String.mk (List.replicate 64 '7'),
             "0x" ++ String.mk (List.replicate 64 '8'), "0x1"]
    protocol := "groth16"
    curve := "bn128" }

/-- `_generate_enhanced_simulated_proof` (lines 480-503): always
`success = True`, `proof_type = "simulated"`, and `fallback_reason` set to
the triggering cause (default `"Circuit unavailable"`). -/
def generate_enhanced_simulated_proof (env : ProverEnv)
    (embedding_hash user_id error : String) : ProofResult :=
  { success := true
    proof := simulatedPayload
    publicSignals := [embedding_hash.take 16]
    embedding_hash := embedding_hash
    nullifier := env.shaTextHex8 user_id % 2 ^ 31
    protocol := "groth16_simulated"
    circuit := "semaphore_simulated"
    proof_type := "simulated"
    circuit_health := "degraded"
    fallback_reason := some error
    priorityTag := none }

/-- One `generate_proof` call's observable outcome: the returned dictionary,
whether `metrics.update_metrics(success, elapsed)` ran and with which flag,
whether the snarkjs subprocess was launched, and the caller's embedding list
after the call (see `hash_embedding`). -/
structure GenOutcome where
  result : ProofResult
  metricsUpdate : Option Bool
  proverInvoked : Bool
  postEmbedding : List ℤ

/-- The path taken by `generate_proof` after the hash and circuit inputs are
prepared (lines 399-478): an early exception is caught by the generic
handler (metrics updated with `False`); a missing wasm or zkey artifact
falls back *without* any metrics update; otherwise the subprocess runs and
the four outcomes map to the real result (metrics `True`), the stderr
fallback (*no* metrics update), the timeout fallback (metrics `False`) and
the exception fallback (metrics `False`). -/
def generate_proof_core (env : ProverEnv) (embedding_hash user_id priority : String)
    (ci : CircuitInput) : ProofResult × Option Bool × Bool :=
  match env.setupError with
  | some e => (generate_enhanced_simulated_proof env embedding_hash user_id e, some false, false)
  | none =>
    if env.wasmExists = false then
      (generate_enhanced_simulated_proof env embedding_hash user_id "Circuit unavailable",
        none, false)
    else if env.zkeyExists = false then
      (generate_enhanced_simulated_proof env embedding_hash user_id "Circuit unavailable",
        none, false)
    else
      match env.proverRun with
      | .success proofData signals =>
        ({ success := true
           proof := proofData
           publicSignals := signals
           embedding_hash := embedding_hash
           nullifier := ci.nullifierHash
           protocol := "groth16"
           circuit := "semaphore"
           proof_type := "real"
           circuit_health := "healthy"
           fallback_reason := none
           priorityTag := some priority }, some true, true)
      | .nonzeroExit stderr =>
        (generate_enhanced_simulated_proof env embedding_hash user_id stderr, none, true)
      | .timeoutExpired =>
        (generate_enhanced_simulated_proof env embedding_hash user_id "Timeout", some false, true)
      | .internalError e =>
        (generate_enhanced_simulated_proof env embedding_hash user_id e, some false, true)

/-- `AdvancedZKProofGenerator.generate_proof` (lines 370-478).  `priority`
selects only the subprocess timeout budget (60s for `"high"`, 30s
otherwise), which the timing-free model does not observe further. -/
def generate_proof (env : ProverEnv) (embedding : List ℤ)
    (user_id priority : String) : GenOutcome :=
  let hashed := hash_embedding env embedding
  let ci := mk_circuit_input env hashed.1 user_id embedding
  let core := generate_proof_core env hashed.1 user_id priority ci
  { result := core.1
    metricsUpdate := core.2.1
    proverInvoked := core.2.2
    postEmbedding := hashed.2 }

/-- The amended metrics contract of `generate_proof` (claim C6): an update
happens only on the early-exception, real-success, timeout and
internal-exception paths — the missing-artifact and non-zero-exit fallbacks
record nothing. -/
def expectedMetricsUpdate (env : ProverEnv) : Option Bool :=
  match env.setupError with
  | some _ => some false
  | none =>
    if env.wasmExists = false ∨ env.zkeyExists = false then none
    else
      match env.proverRun with
      | .success _ _ => some true
      | .nonzeroExit _ => none
      | .timeoutExpired => some false
      | .internalError _ => some false

/-- A claim-C1 backend-unavailability environment: missing artifacts, a
failing or timed-out prover, or an internal exception. -/
def backendUnavailable (env : ProverEnv) : Prop :=
  env.setupError.isSome = true ∨ env.wasmExists = false ∨ env.zkeyExists = false ∨
  (∃ s, env.proverRun = .nonzeroExit s) ∨ env.proverRun = .timeoutExpired ∨
  (∃ s, env.proverRun = .internalError s)

/-- `BatchProofRequest` (lines 728-731). -/
structure BatchProofRequest where
  embeddings : List (List ℤ)
  user_ids : List String
  wallet_addresses : List String

/-- `batch_prove_faces` (lines 1105-1138): the two validations precede the
loop, so a rejected request performs no `generate_proof` call.  The second
component counts the `generate_proof` invocations the call performs. -/
def batch_prove_faces (env : ProverEnv) (req : BatchProofRequest) :
    Except String (List ProofResult) × ℕ :=
  if req.embeddings.length ≠ req.user_ids.length ∨
      req.embeddings.length ≠ req.wallet_addresses.length then
    (Except.error "Mismatched array lengths", 0)
  else if req.embeddings.length > 10 then
    (Except.error "Batch size limited to 10 requests", 0)
  else
    let items := req.embeddings.zip req.user_ids
    (Except.ok (items.map (fun item =>
      (generate_proof env item.1 item.2 "normal").result)), items.length)

/-- A trivially concrete environment: both artifacts present, prover
succeeds. -/
def envHealthy : ProverEnv :=
  { wasmExists := true, zkeyExists := true, r1csExists := true
    snarkjsAvailable := true, wasmSize := 1000, zkeySize := 2000000
    sha256hex := fun _ => "", shaTextHex8 := fun _ => 0, hexBytes8 := fun _ => []
    setupError := none, proverRun := .success simulatedPayload [] }

/-- A concrete environment with the wasm artifact missing. -/
def envNoWasm : ProverEnv :=
  { wasmExists := false, zkeyExists := true, r1csExists := false
    snarkjsAvailable := false, wasmSize := 0, zkeySize := 0
    sha256hex := fun _ => "", shaTextHex8 := fun _ => 0, hexBytes8 := fun _ => []
    setupError := none, proverRun := .success simulatedPayload [] }

/-- A concrete environment with nothing available at all. -/
def envAllDown : ProverEnv :=
  { wasmExists := false, zkeyExists := false, r1csExists := false
    snarkjsAvailable := false, wasmSize := 0, zkeySize := 0
    sha256hex := fun _ => "", shaTextHex8 := fun _ => 0, hexBytes8 := fun _ => []
    setupError := none, proverRun := .nonzeroExit "" }

/-- A batch request with 11 items in each array. -/
def batchRequest11 : BatchProofRequest :=
  { embeddings := List.replicate 11 []
    user_ids := List.replicate 11 "u"
    wallet_addresses := List.replicate 11 "w" }

/-! ## Day-2 Landmark Encoder
(`FaceEmbeddingCapture.landmarks_to_128_embedding`,
face_embedding_capture.py lines 66-115)

This conversion runs over numpy floats and applies `np.tanh`, so it is
modelled over `ℝ`.  Its `468 x 3` landmark matrix is the `List (ℝ × ℝ × ℝ)`
argument.  Crucially, when fewer than 128 features are available the source
pads with `np.random.normal(0, 0.1, padding_size)`: the random draws enter
the model as the stream `rng`. -/

/-- First matrix column (x coordinates). -/
def colX (m : List (ℝ × ℝ × ℝ)) : List ℝ := m.map (fun q => q.1)

/-- Second matrix column (y coordinates). -/
def colY (m : List (ℝ × ℝ × ℝ)) : List ℝ := m.map (fun q => q.2.1)

/-- Third matrix column (z coordinates). -/
def colZ (m : List (ℝ × ℝ × ℝ)) : List ℝ := m.map (fun q => q.2.2)

/-- `np.mean` of one column. -/
noncomputable def npMean (l : List ℝ) : ℝ := l.sum / l.length

/-- `np.std` (population standard deviation) of one column. -/
noncomputable def npStd (l : List ℝ) : ℝ :=
  Real.sqrt (((l.map (fun x => (x - npMean l) ^ 2)).sum) / l.length)

/-- `np.min` of one column (numpy raises on empty input; landmark input is
the 468-point mesh). -/
noncomputable def npMinL (l : List ℝ) : ℝ :=
  match l with
  | [] => 0
  | x :: xs => xs.foldl min x

/-- `np.max` of one column. -/
noncomputable def npMaxL (l : List ℝ) : ℝ :=
  match l with
  | [] => 0
  | x :: xs => xs.foldl max x

/-- `key_indices` (line 95). -/
def key_indices : List ℕ :=
  [0, 10, 20, 30, 40, 50, 60, 70, 80, 90, 100, 110, 120, 130, 140, 150]

/-- The `features` list built at lines 81-101: per-axis mean, standard
deviation, min and max (12 values), then the three coordinates of each
in-range key landmark (up to 48 values). -/
noncomputable def features (m : List (ℝ × ℝ × ℝ)) : List ℝ :=
  [npMean (colX m), npMean (colY m), npMean (colZ m)] ++
  [npStd (colX m), npStd (colY m), npStd (colZ m)] ++
  [npMinL (colX m), npMinL (colY m), npMinL (colZ m)] ++
  [npMaxL (colX m), npMaxL (colY m), npMaxL (colZ m)] ++
  (key_indices.filter (fun i => i < m.length)).flatMap
    (fun i => [(m.getD i (0, 0, 0)).1, (m.getD i (0, 0, 0)).2.1, (m.getD i (0, 0, 0)).2.2])

/-- `FaceEmbeddingCapture.landmarks_to_128_embedding` (lines 66-115):
truncate the features to 128 or pad them with `rng` draws (the
`np.random.normal` samples), then apply `np.tanh` elementwise. -/
noncomputable def landmarks_to_128_embedding (rng : ℕ → ℝ) (m : List (ℝ × ℝ × ℝ)) : List ℝ :=
  (if 128 < (features m).length then (features m).take 128
   else features m ++ (List.range (128 - (features m).length)).map rng).map Real.tanh

/-- A padding stream that always draws 0. -/
noncomputable def rngZero : ℕ → ℝ := fun _ => 0

/-- A padding stream that always draws 1. -/
noncomputable def rngOne : ℕ → ℝ := fun _ => 1

/-- The 468-point landmark matrix with every point at the origin. -/
noncomputable def m468 : List (ℝ × ℝ × ℝ) := List.replicate 468 (0, 0, 0)

/-! ## Theorems about the Risk Scoring Engine -/

theorem income_score_mem (p : FinancialProfile) (h : 0 ≤ p.monthly_income) :
    0 ≤ income_score p ∧ income_score p ≤ 1 :=
  ⟨le_min (by positivity) zero_le_one, min_le_right _ _⟩

theorem expenseFrac_nonneg (p : FinancialProfile) (h : 0 ≤ p.monthly_expenses) :
    0 ≤ expenseFrac p := by
  unfold expenseFrac
  split
  · exact div_nonneg h (by linarith)
  · exact zero_le_one

theorem expense_score_mem (p : FinancialProfile) (h : 0 ≤ p.monthly_expenses) :
    0 ≤ expense_score p ∧ expense_score p ≤ 1 := by
  have hf := expenseFrac_nonneg p h
  exact ⟨le_max_left _ _, max_le zero_le_one (by linarith)⟩

theorem balance_score_mem (p : FinancialProfile) :
    0 ≤ balance_score p ∧ balance_score p ≤ 1 := by
  unfold balance_score
  split
  · exact ⟨le_min (by positivity) zero_le_one, min_le_right _ _⟩
  · exact ⟨le_refl 0, zero_le_one⟩

theorem frequency_score_mem (p : FinancialProfile) (h : 0 ≤ p.transaction_frequency) :
    0 ≤ frequency_score p ∧ frequency_score p ≤ 1 :=
  ⟨le_min (by positivity) zero_le_one, min_le_right _ _⟩

theorem stability_score_mem (p : FinancialProfile) (h : 0 ≤ p.income_stability) :
    0 ≤ stability_score p ∧ stability_score p ≤ 1 :=
  ⟨le_max_left _ _, max_le zero_le_one (by linarith)⟩

theorem weighted_score_mem (p : FinancialProfile)
    (hinc : 0 ≤ p.monthly_income) (hexp : 0 ≤ p.monthly_expenses)
    (hfreq : 0 ≤ p.transaction_frequency) (hstab : 0 ≤ p.income_stability)
    (hpat0 : 0 ≤ p.expense_pattern_score) (hpat1 : p.expense_pattern_score ≤ 1) :
    0 ≤ weighted_score p ∧ weighted_score p ≤ 1 := by
  obtain ⟨h10, h11⟩ := income_score_mem p hinc
  obtain ⟨h20, h21⟩ := expense_score_mem p hexp
  obtain ⟨h30, h31⟩ := balance_score_mem p
  obtain ⟨h40, h41⟩ := frequency_score_mem p hfreq
  obtain ⟨h50, h51⟩ := stability_score_mem p hstab
  unfold weighted_score pattern_score
  constructor <;> nlinarith

/-- C3: the claim asserts `final_score ∈ [300, 850]` for arbitrary profiles.
It is false twice over: the entirely in-range profile `profileAllMax` already
scores `300 + 1.0 * 600 = 900 > 850`, and the adversarial profile
`profilePatternTen` (pattern score 10) scores 1440 — the code never clamps. -/
theorem calculate_risk_score_exceeds_850 :
    (calculate_risk_score profileAllMax).final_score = 900 ∧
    ¬ (calculate_risk_score profileAllMax).final_score ≤ 850 ∧
    (calculate_risk_score profilePatternTen).final_score = 1440 := by
  refine ⟨?_, ?_, ?_⟩ <;>
    norm_num [calculate_risk_score, weighted_score, income_score, expense_score,
      expenseFrac, balance_score, frequency_score, stability_score, pattern_score,
      pyInt, profileAllMax, profilePatternTen]

/-- C3 (amended): for profiles whose raw fields are in range (non-negative
income, expenses, frequency and stability; pattern score in `[0, 1]`), every
component score lies in `[0, 1]`, the weighted score in `[0, 1]`, and
`final_score = int(300 + weighted * 600)` lies in `[300, 900]` — the upper
bound is 900, not 850, and nothing clamps out-of-range inputs. -/
theorem calculate_risk_score_bounds (p : FinancialProfile)
    (hinc : 0 ≤ p.monthly_income) (hexp : 0 ≤ p.monthly_expenses)
    (hfreq : 0 ≤ p.transaction_frequency) (hstab : 0 ≤ p.income_stability)
    (hpat0 : 0 ≤ p.expense_pattern_score) (hpat1 : p.expense_pattern_score ≤ 1) :
    300 ≤ (calculate_risk_score p).final_score ∧
      (calculate_risk_score p).final_score ≤ 900 := by
  obtain ⟨hw0, hw1⟩ := weighted_score_mem p hinc hexp hfreq hstab hpat0 hpat1
  have hfs : (calculate_risk_score p).final_score = pyInt (300 + weighted_score p * 600) := rfl
  have hx0 : (300 : ℚ) ≤ 300 + weighted_score p * 600 := by linarith
  have hx1 : 300 + weighted_score p * 600 ≤ 900 := by linarith
  have hpy : pyInt (300 + weighted_score p * 600) = ⌊300 + weighted_score p * 600⌋ := by
    unfold pyInt
    rw [if_neg (not_lt.mpr (by linarith))]
  rw [hfs, hpy]
  constructor
  · exact Int.le_floor.mpr (by exact_mod_cast hx0)
  · calc ⌊300 + weighted_score p * 600⌋ ≤ ⌊(900 : ℚ)⌋ := Int.floor_le_floor hx1
      _ = 900 := by norm_num

/-- C3 witness: the amended bound applied at the concrete profile
`profileAllMax`, whose hypotheses all hold by computation. -/
theorem calculate_risk_score_bounds_witness :
    300 ≤ (calculate_risk_score profileAllMax).final_score ∧
      (calculate_risk_score profileAllMax).final_score ≤ 900 :=
  calculate_risk_score_bounds profileAllMax (by norm_num [profileAllMax])
    (by norm_num [profileAllMax]) (by norm_num [profileAllMax])
    (by norm_num [profileAllMax]) (by norm_num [profileAllMax])
    (by norm_num [profileAllMax])

/-! ## Theorems about the Liveness & Quality Analyzer -/

set_option maxRecDepth 100000

/-- C2: the claim asserts one fixed embedding length for every input.  The
code disagrees with itself: its comment announces a "256-byte embedding",
but `landmarks[::2][:64]` keeps 64 two-coordinate points, so the normalised
path emits 128 values, while the degenerate flat path emits
`np.ones(256) * 128` — 256 values.  Evaluated at both failing inputs. -/
theorem embedding_256_length_varies :
    (embedding_256 landmarksDiagonal).length = 128 ∧
    (embedding_256 landmarksFlat).length = 256 := by
  decide

/-- C5 counterexample: standard mode, eye-aspect-ratio 0.1 (at or below the
0.2 threshold) with face size 0.5, sharpness 100 and brightness 128 all
passing.  The claim predicts `isLive = false`; the code scores
`0.3 + 0.2 + 0.1 = 0.6`, which meets the `>= 0.6` threshold, so
`isLive = true`. -/
theorem liveness_eyes_closed_cex :
    (detect_face_and_liveness (1/10) (3/10) (1/2) qualityGood 0 false
        [((0 : ℤ), (0 : ℤ))]).liveness_detected = true ∧
    (detect_face_and_liveness (1/10) (3/10) (1/2) qualityGood 0 false
        [((0 : ℤ), (0 : ℤ))]).confidence = 3/5 := by
  constructor
  · norm_num [detect_face_and_liveness, liveness_checks, qualityGood,
      EAR_THRESHOLD, FACE_SIZE_THRESHOLD]
  · norm_num [detect_face_and_liveness, liveness_checks, qualityGood,
      EAR_THRESHOLD, FACE_SIZE_THRESHOLD, min_def]

/-- C5 (amended): in standard mode, whenever the eye check fails
(`avg_ear ≤ 0.2`) while face-size, sharpness and brightness all pass, the
liveness score is exactly 0.6, so `isLive = true` — not `false` as claimed —
and the request therefore succeeds without the failed-checks list ever being
produced; `_identify_failed_liveness_checks`, had it been applied to this
result, would indeed contain "Eyes appear closed or partially closed". -/
theorem liveness_eyes_closed_standard (avg_ear mouth_ar face_area : ℚ)
    (q : QualityMetrics) (lv : ℚ) (lm : List (ℤ × ℤ))
    (hear : avg_ear ≤ 1/5) (harea : face_area > 1/10) (hsharp : q.sharpness > 50)
    (hb1 : 50 < q.brightness) (hb2 : q.brightness < 200) :
    (detect_face_and_liveness avg_ear mouth_ar face_area q lv false lm).liveness_detected = true ∧
    (detect_face_and_liveness avg_ear mouth_ar face_area q lv false lm).confidence = 3/5 ∧
    "Eyes appear closed or partially closed" ∈
      identify_failed_liveness_checks
        (detect_face_and_liveness avg_ear mouth_ar face_area q lv false lm) := by
  have hne : ¬ avg_ear > EAR_THRESHOLD := not_lt.mpr hear
  have hchecks : liveness_checks avg_ear mouth_ar face_area q lv false =
      [((3/10 : ℚ), "Appropriate face size"), ((1/5 : ℚ), "Good sharpness"),
        ((1/10 : ℚ), "Good lighting")] := by
    unfold liveness_checks
    rw [if_neg hne, if_pos (show face_area > FACE_SIZE_THRESHOLD from harea),
      if_pos hsharp, if_pos ⟨hb1, hb2⟩]
    simp
  refine ⟨?_, ?_, ?_⟩
  · show decide ((((liveness_checks avg_ear mouth_ar face_area q lv false).map Prod.fst).sum) ≥ 3/5) = true
    rw [hchecks]
    norm_num
  · show min (((liveness_checks avg_ear mouth_ar face_area q lv false).map Prod.fst).sum) 1 = 3/5
    rw [hchecks]
    norm_num [min_def]
  · unfold identify_failed_liveness_checks
    rw [if_pos (show (detect_face_and_liveness avg_ear mouth_ar face_area q lv
        false lm).eye_aspect_rat ≤ 1/5 from hear)]
    simp

/-- C5 witness: the amended statement at concrete inputs
(EAR 0.125, face area 0.4, sharpness 60, brightness 100). -/
theorem liveness_eyes_closed_standard_witness :
    (detect_face_and_liveness (1/8) (3/10) (2/5) ⟨60, 100, 50⟩ 0 false []).liveness_detected = true ∧
    (detect_face_and_liveness (1/8) (3/10) (2/5) ⟨60, 100, 50⟩ 0 false []).confidence = 3/5 ∧
    "Eyes appear closed or partially closed" ∈
      identify_failed_liveness_checks
        (detect_face_and_liveness (1/8) (3/10) (2/5) ⟨60, 100, 50⟩ 0 false []) :=
  liveness_eyes_closed_standard (1/8) (3/10) (2/5) ⟨60, 100, 50⟩ 0 []
    (by norm_num) (by norm_num) (by norm_num) (by norm_num) (by norm_num)

/-! ## Theorems about the Proof Generation Engine -/

/-- C1: `generate_proof` always returns a result with `success = True`
(the model is a total function, mirroring that every exception path is
caught), and on every backend-unavailability path — missing wasm or zkey
artifact, non-zero prover exit, subprocess timeout, or internal exception —
the result additionally has `proof_type = "simulated"` and a populated
`fallback_reason`. -/
theorem generate_proof_always_succeeds (env : ProverEnv) (embedding : List ℤ)
    (user_id priority : String) :
    (generate_proof env embedding user_id priority).result.success = true ∧
    (backendUnavailable env →
      (generate_proof env embedding user_id priority).result.proof_type = "simulated" ∧
      (generate_proof env embedding user_id priority).result.fallback_reason.isSome = true) := by
  obtain ⟨w, z, r, sj, ws, zs, sh, st, hb, se, pr⟩ := env
  cases se <;> cases w <;> cases z <;> cases pr <;>
    simp [generate_proof, generate_proof_core, generate_enhanced_simulated_proof,
      backendUnavailable]

/-- C4: whenever a required circuit artifact (wasm or zkey) is missing, the
call returns a simulated result and the snarkjs subprocess is never
launched. -/
theorem generate_proof_skips_prover (env : ProverEnv) (embedding : List ℤ)
    (user_id priority : String)
    (h : env.wasmExists = false ∨ env.zkeyExists = false) :
    (generate_proof env embedding user_id priority).result.proof_type = "simulated" ∧
    (generate_proof env embedding user_id priority).proverInvoked = false := by
  obtain ⟨w, z, r, sj, ws, zs, sh, st, hb, se, pr⟩ := env
  cases se <;> cases w <;> cases z <;>
    simp_all [generate_proof, generate_proof_core, generate_enhanced_simulated_proof]

/-- C4 witness: the wasm artifact is missing in `envNoWasm`, so the proof is
simulated and the prover is not invoked. -/
theorem generate_proof_skips_prover_witness :
    (generate_proof envNoWasm [] "user_1" "normal").result.proof_type = "simulated" ∧
    (generate_proof envNoWasm [] "user_1" "normal").proverInvoked = false :=
  generate_proof_skips_prover envNoWasm [] "user_1" "normal" (Or.inl rfl)

/-- C6 counterexample: on the missing-artifact fallback path the code calls
`_generate_enhanced_simulated_proof` directly and `metrics.update_metrics`
never runs — this invocation records no outcome at all, contradicting
"every invocation records its outcome and elapsed time". -/
theorem generate_proof_no_metrics_on_missing_artifact :
    (generate_proof envNoWasm [] "user_1" "normal").metricsUpdate.isSome = false := by
  rfl

/-- C6 (amended): `generate_proof` records a metrics update exactly on the
early-exception path (`False`), the real-success path (`True`), the timeout
path (`False`) and the internal-exception path (`False`); the
missing-artifact and non-zero-exit fallback paths record nothing. -/
theorem generate_proof_metrics_paths (env : ProverEnv) (embedding : List ℤ)
    (user_id priority : String) :
    (generate_proof env embedding user_id priority).metricsUpdate =
      expectedMetricsUpdate env := by
  obtain ⟨w, z, r, sj, ws, zs, sh, st, hb, se, pr⟩ := env
  cases se <;> cases w <;> cases z <;> cases pr <;> rfl

/-- C8 counterexample: with every check failing (no wasm, no zkey, no
snarkjs) the classification is `"degraded"`, not `"unhealthy"` as the claim
requires when no checks hold. -/
theorem check_circuit_health_all_down :
    (check_circuit_health envAllDown).overall_health = "degraded" ∧
    (check_circuit_health envAllDown).overall_health ≠ "unhealthy" := by
  constructor <;> simp [check_circuit_health, envAllDown]

/-- C8 (amended): `overall_health` is `"healthy"` exactly when the wasm
artifact, the zkey artifact and the snarkjs tool are all available, and
`"degraded"` in every other case — the `"unhealthy"` value is only the
pre-check initialisation and is never returned on the exception-free
path. -/
theorem check_circuit_health_classification (env : ProverEnv) :
    ((check_circuit_health env).overall_health = "healthy" ↔
      (env.wasmExists = true ∧ env.zkeyExists = true ∧ env.snarkjsAvailable = true)) ∧
    ((check_circuit_health env).overall_health = "degraded" ↔
      ¬ (env.wasmExists = true ∧ env.zkeyExists = true ∧ env.snarkjsAvailable = true)) ∧
    (check_circuit_health env).overall_health ≠ "unhealthy" := by
  obtain ⟨w, z, r, sj, ws, zs, sh, st, hb, se, pr⟩ := env
  cases w <;> cases z <;> cases sj <;> simp [check_circuit_health]

/-- C9: a batch request whose three arrays differ in length, or which
carries more than 10 items, is rejected before any proof attempt: the
result is an error and the number of `generate_proof` invocations is 0. -/
theorem batch_prove_rejects_before_any_attempt (env : ProverEnv)
    (req : BatchProofRequest)
    (h : req.embeddings.length ≠ req.user_ids.length ∨
         req.embeddings.length ≠ req.wallet_addresses.length ∨
         req.embeddings.length > 10) :
    (∃ msg, (batch_prove_faces env req).1 = Except.error msg) ∧
    (batch_prove_faces env req).2 = 0 := by
  unfold batch_prove_faces
  by_cases h1 : req.embeddings.length ≠ req.user_ids.length ∨
      req.embeddings.length ≠ req.wallet_addresses.length
  · rw [if_pos h1]
    exact ⟨⟨_, rfl⟩, rfl⟩
  · have h10 : req.embeddings.length > 10 := by tauto
    rw [if_neg h1, if_pos h10]
    exact ⟨⟨_, rfl⟩, rfl⟩

/-- C9 witness: the 11-item batch request is rejected with no proof
attempt. -/
theorem batch_prove_rejects_witness :
    (∃ msg, (batch_prove_faces envHealthy batchRequest11).1 = Except.error msg) ∧
    (batch_prove_faces envHealthy batchRequest11).2 = 0 :=
  batch_prove_rejects_before_any_attempt envHealthy batchRequest11
    (Or.inr (Or.inr (by simp [batchRequest11])))

/-- C10: for every embedding list shorter than 128 elements,
`hash_embedding` extends the caller's list in place with zeros to length
128 — the caller's list is not left unchanged — and `generate_proof`
propagates the same mutation to its caller. -/
theorem hash_embedding_mutates_short_input (env : ProverEnv) (l : List ℤ)
    (user_id priority : String) (h : l.length < 128) :
    (hash_embedding env l).2 = l ++ List.replicate (128 - l.length) 0 ∧
    (hash_embedding env l).2 ≠ l ∧
    (generate_proof env l user_id priority).postEmbedding =
      l ++ List.replicate (128 - l.length) 0 := by
  have h2 : (hash_embedding env l).2 = l ++ List.replicate (128 - l.length) 0 := by
    unfold hash_embedding
    rw [if_pos h]
  refine ⟨h2, ?_, h2⟩
  intro heq
  rw [h2] at heq
  have hlen := congrArg List.length heq
  simp [List.length_append, List.length_replicate] at hlen
  omega

/-- C10 witness: a three-element embedding list is extended to 128 entries,
so the caller's list changes. -/
theorem hash_embedding_mutates_witness :
    (hash_embedding envHealthy [1, 2, 3]).2 =
      [1, 2, 3] ++ List.replicate (128 - [1, 2, 3].length) 0 ∧
    (hash_embedding envHealthy [1, 2, 3]).2 ≠ [1, 2, 3] ∧
    (generate_proof envHealthy [1, 2, 3] "user_1" "normal").postEmbedding =
      [1, 2, 3] ++ List.replicate (128 - [1, 2, 3].length) 0 :=
  hash_embedding_mutates_short_input envHealthy [1, 2, 3] "user_1" "normal"
    (by simp)

/-! ## Theorems about the Day-2 Landmark Encoder -/

/-- For the 468-point mesh, exactly 60 deterministic features are built, so
68 random padding draws are always needed. -/
theorem features_m468_length : (features m468).length = 60 := by
  simp [features, m468, key_indices, colX, colY, colZ]

/-- C7 counterexample: encoding the same 468-point LandmarkSet with two
different `np.random.normal` draw streams (all-zero vs all-one) yields two
different embeddings — the first padded position holds `tanh 0 = 0` in one
and `tanh 1 > 0` in the other, so the conversion is not a function of the
LandmarkSet alone. -/
theorem landmarks_to_128_embedding_nondeterministic :
    landmarks_to_128_embedding rngZero m468 ≠ landmarks_to_128_embedding rngOne m468 := by
  have hlen : (features m468).length = 60 := features_m468_length
  have hnot : ¬ 128 < (features m468).length := by rw [hlen]; norm_num
  intro heq
  unfold landmarks_to_128_embedding at heq
  rw [if_neg hnot, if_neg hnot, hlen, List.map_append, List.map_append] at heq
  have hpp := List.append_cancel_left heq
  have hth := congrArg (fun l : List ℝ => l[0]?) hpp
  simp [rngZero, rngOne] at hth
  have hpos : 0 < Real.tanh 1 := by
    rw [Real.tanh_eq_sinh_div_cosh]
    exact div_pos (Real.sinh_pos_iff.mpr one_pos) (Real.cosh_pos 1)
  linarith

/-- C7 (amended): the Day-2 conversion is deterministic only up to its
feature prefix — the first `len(features)` output entries agree for any two
draw streams — and the output always has exactly 128 entries; beyond the
prefix the padding is randomly drawn, so identical LandmarkSets need not
hash identically downstream.  (The Day-4 `embedding_256` conversion, by
contrast, is a pure function of the landmarks by construction.) -/
theorem landmarks_to_128_embedding_prefix_deterministic (rng1 rng2 : ℕ → ℝ)
    (m : List (ℝ × ℝ × ℝ)) :
    (landmarks_to_128_embedding rng1 m).take (features m).length =
      (landmarks_to_128_embedding rng2 m).take (features m).length ∧
    (landmarks_to_128_embedding rng1 m).length = 128 := by
  unfold landmarks_to_128_embedding
  by_cases hc : 128 < (features m).length
  · rw [if_pos hc, if_pos hc]
    refine ⟨rfl, ?_⟩
    rw [List.length_map, List.length_take]
    omega
  · rw [if_neg hc, if_neg hc]
    have key : ∀ (p : List ℝ),
        (((features m) ++ p).map Real.tanh).take (features m).length =
          (features m).map Real.tanh := by
      intro p
      rw [List.map_append]
      have h1 : (features m).length = ((features m).map Real.tanh).length :=
        (List.length_map _ _).symm
      rw [h1, List.take_left]
    constructor
    · rw [key, key]
    · rw [List.length_map, List.length_append, List.length_map, List.length_range]
      omega

end ZkFaceId
